import Mathlib

/-!
Shallow embedding of `scripts/create_issues.py` (batch GitHub-issue creator).

The script reads a JSON task file, checks the `gh` CLI, asks for interactive
confirmation, then creates one issue per task via `gh issue create`, counting
successes and failures, and prints a summary.

Modelling conventions:
* JSON dictionaries are structures with `Option`-typed fields; a Python
  `d[key]` access is `getField`, which raises `KeyError` (as an `Except`
  error) when the field is absent — exactly as `json.load` produces dicts
  that are only checked at access time.
* The outside world (the file system, the `gh` binary, standard input) is an
  `Env`: the result of reading/parsing the data file, the state of the `gh`
  CLI, the confirmation line typed by the user, and the exit code of the
  n-th `gh issue create` invocation.
* `main` returns the list of observable external events (subprocess
  invocations, the prompt, the printed summary) together with an `Outcome`:
  `Outcome.exited c` for `sys.exit(c)` or a normal return (code 0), and
  `Outcome.crashed e` for an unhandled Python exception.  CPython terminates
  with OS exit status 1 on an unhandled exception, which `osExitCode`
  reflects.
-/

/-- Python exceptions that the script can raise and never catches. -/
inductive PyErr where
  | keyError (key : String)
  | fileNotFoundError
  | jsonDecodeError
  | osError
  deriving DecidableEq, Repr

/-- State of the external `gh` client: absent from PATH, or present with the
exit code that `gh auth status` returns. -/
inductive GhStatus where
  | absent
  | present (authStatusExit : Nat)
  deriving DecidableEq, Repr

/-- A task record as parsed from JSON: every field may be missing. -/
structure JsonTask where
  id? : Option String
  title? : Option String
  objective? : Option String
  prerequisites? : Option (List String)
  acceptanceCriteria? : Option (List String)
  timeEstimate? : Option String
  labels? : Option (List String)
  deriving DecidableEq, Repr

/-- The `project` object of the data file. -/
structure JsonProject where
  repository? : Option String
  milestone? : Option String
  deriving DecidableEq, Repr

/-- The top-level object of `issues-data.json`. -/
structure JsonData where
  project? : Option JsonProject
  tasks? : Option (List JsonTask)
  deriving DecidableEq, Repr

/-- The outside world for one run of the script. -/
structure Env where
  gh : GhStatus
  loadResult : Except PyErr JsonData
  response : String
  createExit : Nat → Nat

/-- Observable external events of a run, in order. -/
inductive Event where
  | preflight
  | loadCall
  | prompt
  | cancelMessage
  | createCall (cmd : List String)
  | summary (created failed total : Nat)
  deriving DecidableEq, Repr

/-- How the process ends: `sys.exit`/normal return with a code, or an
unhandled exception. -/
inductive Outcome where
  | exited (code : Nat)
  | crashed (e : PyErr)
  deriving DecidableEq, Repr

/-- OS-level exit status: CPython exits with status 1 on an unhandled
exception. -/
def osExitCode : Outcome → Nat
  | Outcome.exited c => c
  | Outcome.crashed _ => 1

def keyId : String := "id"
def keyTitle : String := "title"
def keyObjective : String := "objective"
def keyPrerequisites : String := "prerequisites"
def keyAcceptanceCriteria : String := "acceptanceCriteria"
def keyTimeEstimate : String := "timeEstimate"
def keyLabels : String := "labels"
def keyProject : String := "project"
def keyTasks : String := "tasks"
def keyRepository : String := "repository"
def keyMilestone : String := "milestone"

/-- Python dictionary access `d[key]`: `KeyError` when the key is absent. -/
def getField (o : Option α) (key : String) : Except PyErr α :=
  match o with
  | some v => Except.ok v
  | none => Except.error (PyErr.keyError key)

/-- Python `str.lower` on one character (restricted to the ASCII range, which
is all the script ever compares against). -/
def pyLowerChar (c : Char) : Char :=
  if 65 ≤ c.toNat ∧ c.toNat ≤ 90 then Char.ofNat (c.toNat + 32) else c

/-- Python `str.lower` as used by `response.lower()`. -/
def pyLower (s : String) : String :=
  String.mk (s.data.map pyLowerChar)

/-- Lines 25–39: `check_gh_cli()`.  Returns the boolean result together with
the diagnostic lines printed on failure. -/
def check_gh_cli (gh : GhStatus) : Bool × List String :=
  match gh with
  | GhStatus.absent =>
      (false, ["❌ GitHub CLI (gh) is not installed.",
               "Install it from: https://cli.github.com/"])
  | GhStatus.present code =>
      if code ≠ 0 then
        (false, ["❌ GitHub CLI is not authenticated. Please run: gh auth login"])
      else
        (true, [])

/-- Lines 48–52, the loop body: one `- {prereq}` bullet per prerequisite. -/
def bulletLines : List String → String
  | [] => ""
  | p :: ps => "- " ++ p ++ "\n" ++ bulletLines ps

/-- Lines 48–52: the Prerequisites block — `- None` when the list is falsy
(empty), else one bullet per entry. -/
def prereqBlock (ps : List String) : String :=
  if ps.isEmpty then "- None\n" else bulletLines ps

/-- Lines 57–58: one `- [ ] {criterion}` checklist line per criterion. -/
def checkLines : List String → String
  | [] => ""
  | c :: cs => "- [ ] " ++ c ++ "\n" ++ checkLines cs

/-- Lines 41–74: `create_issue_body(task)`.  Field accesses happen in source
order (objective, prerequisites, acceptanceCriteria, timeEstimate), each of
which can raise `KeyError`. -/
def create_issue_body (task : JsonTask) : Except PyErr String := do
  let obj ← getField task.objective? keyObjective
  let body := "## Objective\n" ++ obj ++ "\n\n## Prerequisites\n"
  let ps ← getField task.prerequisites? keyPrerequisites
  let body := body ++ prereqBlock ps
  let body := body ++ "\n## Acceptance Criteria\n"
  let cs ← getField task.acceptanceCriteria? keyAcceptanceCriteria
  let body := body ++ checkLines cs
  let te ← getField task.timeEstimate? keyTimeEstimate
  let body := body ++ ("\n## Time Estimate\n" ++ te ++
    "\n\n## Resources\n- Implementation Plan: `docs/SNES9XWASM_IMPLEMENTATION_PLAN.md`\n- Task Breakdown: `docs/TASK_BREAKDOWN.md`\n\n## Definition of Done\n- [ ] Code changes committed and reviewed\n- [ ] All acceptance criteria met\n- [ ] Tests written and passing\n- [ ] Documentation updated\n")
  pure body

/-- Line 78: the issue title `f"[{task['id']}] {task['title']}"`. -/
def issue_title (task : JsonTask) : Except PyErr String := do
  let i ← getField task.id? keyId
  let t ← getField task.title? keyTitle
  pure ("[" ++ i ++ "] " ++ t)

/-- Lines 93–95: `--label` arguments, two per label, in order. -/
def labelArgs : List String → List String
  | [] => []
  | l :: ls => "--label" :: l :: labelArgs ls

/-- Lines 76–95: the argument vector of the `gh issue create` subprocess for
one task (title, then body, then labels, in the source's evaluation
order). -/
def create_issue_cmd (repo : String) (task : JsonTask) : Except PyErr (List String) := do
  let title ← issue_title task
  let body ← create_issue_body task
  let labels ← getField task.labels? keyLabels
  pure (["gh", "issue", "create",
         "--repo", repo,
         "--title", title,
         "--body", body,
         "--assignee", "@me"] ++ labelArgs labels)

/-- The command vector `create_issue_cmd` produces on a well-formed task
(and `[]` on a task it raises on); used to state batch-trace equalities. -/
def okCmd (repo : String) (task : JsonTask) : List String :=
  match create_issue_cmd repo task with
  | Except.ok cmd => cmd
  | Except.error _ => []

/-- Lines 19–23: `load_issue_data()`.  The file read and `json.load` are the
environment's `loadResult` (missing file, unreadable file, malformed JSON all
surface as the corresponding Python exception). -/
def load_issue_data (env : Env) : Except PyErr JsonData :=
  env.loadResult

/-- Lines 116–117: `data['project']['repository']` and `data['tasks']`, in
source order, each access able to raise `KeyError`. -/
def startupFields (d : JsonData) : Except PyErr (JsonProject × String × List JsonTask) := do
  let proj ← getField d.project? keyProject
  let repo ← getField proj.repository? keyRepository
  let tasks ← getField d.tasks? keyTasks
  pure (proj, repo, tasks)

/-- Lines 128–136: the per-task loop.  `k` is the index of the next
`gh issue create` invocation (feeding `Env.createExit`), `created`/`failed`
are the accumulators of lines 129–130.  A `KeyError` while formatting a task
escapes the loop (the `try` in `create_issue` only guards the subprocess
call). -/
def runBatch (exitAt : Nat → Nat) (repo : String) :
    List JsonTask → Nat → Nat → Nat → List Event × Except PyErr (Nat × Nat)
  | [], _, created, failed => ([], Except.ok (created, failed))
  | t :: rest, k, created, failed =>
    match create_issue_cmd repo t with
    | Except.error e => ([], Except.error e)
    | Except.ok cmd =>
      let ok := exitAt k == 0
      let r := runBatch exitAt repo rest (k + 1)
        (if ok then created + 1 else created)
        (if ok then failed else failed + 1)
      (Event.createCall cmd :: r.1, r.2)

/-- Lines 138–150: summary printing, then — only when `created > 0` — the
follow-up block whose step 2 reads `data['project']['milestone']`. -/
def afterBatch (proj : JsonProject) (total : Nat)
    (r : List Event × Except PyErr (Nat × Nat)) : List Event × Outcome :=
  match r with
  | (evs, Except.error e) =>
      ([Event.preflight, Event.loadCall, Event.prompt] ++ evs, Outcome.crashed e)
  | (evs, Except.ok (created, failed)) =>
      let tr := [Event.preflight, Event.loadCall, Event.prompt] ++ evs ++
        [Event.summary created failed total]
      if created > 0 then
        match getField proj.milestone? keyMilestone with
        | Except.error e => (tr, Outcome.crashed e)
        | Except.ok _ => (tr, Outcome.exited 0)
      else
        (tr, Outcome.exited 0)

/-- Lines 105–150: `main()`.  Preflight first (exit 1 on failure), then the
data load, the startup field accesses, the confirmation gate
(`response.lower() != 'y'` cancels with a normal return), then the batch. -/
def main' (env : Env) : List Event × Outcome :=
  if (check_gh_cli env.gh).1 = false then
    ([Event.preflight], Outcome.exited 1)
  else
    match load_issue_data env with
    | Except.error e => ([Event.preflight, Event.loadCall], Outcome.crashed e)
    | Except.ok d =>
      match startupFields d with
      | Except.error e => ([Event.preflight, Event.loadCall], Outcome.crashed e)
      | Except.ok (proj, repo, tasks) =>
        if pyLower env.response = "y" then
          afterBatch proj tasks.length (runBatch env.createExit repo tasks 0 0 0)
        else
          ([Event.preflight, Event.loadCall, Event.prompt, Event.cancelMessage],
           Outcome.exited 0)

/-- Number of `gh issue create` invocations in a trace. -/
def countCreates : List Event → Nat
  | [] => 0
  | Event.createCall _ :: tr => countCreates tr + 1
  | _ :: tr => countCreates tr

/-- Number of successful creations among calls `k, k+1, …, k+n-1`. -/
def succCount (exitAt : Nat → Nat) : Nat → Nat → Nat
  | _, 0 => 0
  | k, n + 1 => (if exitAt k == 0 then 1 else 0) + succCount exitAt (k + 1) n

/-- Number of failed creations among calls `k, k+1, …, k+n-1`. -/
def failCount (exitAt : Nat → Nat) : Nat → Nat → Nat
  | _, 0 => 0
  | k, n + 1 => (if exitAt k == 0 then 0 else 1) + failCount exitAt (k + 1) n

/-- A task record with all required fields present (the shape §3 of the data
model promises). -/
def validTask (t : JsonTask) : Prop :=
  t.id?.isSome ∧ t.title?.isSome ∧ t.objective?.isSome ∧ t.prerequisites?.isSome ∧
    t.acceptanceCriteria?.isSome ∧ t.timeEstimate?.isSome ∧ t.labels?.isSome

instance (t : JsonTask) : Decidable (validTask t) := by
  unfold validTask; infer_instance

/-- The lines of a character list, split at every newline (a trailing newline
yields a final empty line, as Python's `str.split` at a separator would). -/
def splitNL : List Char → List (List Char)
  | [] => [[]]
  | c :: cs =>
    match splitNL cs with
    | [] => [[c]]
    | l :: ls => if c = '\n' then [] :: l :: ls else (c :: l) :: ls

/-! ### Concrete sample data for witnesses and counterexamples -/

/-- The end-to-end example task of spec §8. -/
def taskT1 : JsonTask :=
  ⟨some ("T1"), some ("Add X"), some ("Do X"), some [], some ["X works"],
    some ("1h"), some ["feature"]⟩

/-- A fully populated task with two prerequisites and two criteria. -/
def taskT2 : JsonTask :=
  ⟨some ("T2"), some ("Add Y"), some ("Do Y"), some ["P1", "P2"], some ["A", "B"],
    some ("2h"), some ["bug", "ui"]⟩

/-- Another fully populated task. -/
def taskT3 : JsonTask :=
  ⟨some ("T3"), some ("Add Z"), some ("Do Z"), some [], some ["Z works"],
    some ("3h"), some []⟩

/-- A task record whose required `objective` field is missing. -/
def taskNoObjective : JsonTask :=
  ⟨some ("T9"), some ("Broken"), none, some [], some ["C"], some ("1h"), some []⟩

def projOK : JsonProject := ⟨some ("org/repo"), some ("M1")⟩

def dataOneTask : JsonData := ⟨some projOK, some [taskT1]⟩

def dataThreeTasks : JsonData := ⟨some projOK, some [taskT1, taskT2, taskT3]⟩

/-- Structurally invalid input: the second task record lacks `objective`. -/
def dataBadTask : JsonData := ⟨some projOK, some [taskT1, taskNoObjective]⟩

/-- Structurally invalid input: the project metadata lacks `repository`. -/
def dataNoRepo : JsonData := ⟨some (⟨none, some ("M1")⟩ : JsonProject), some [taskT1]⟩

/-- Structurally invalid input: the project metadata lacks `milestone`
(read by the script only after the whole batch). -/
def dataNoMilestone : JsonData :=
  ⟨some (⟨some ("org/repo"), none⟩ : JsonProject), some [taskT1]⟩

/-- External client that succeeds on every creation call. -/
def exitAllZero : Nat → Nat := fun _ => 0

/-- External client that fails exactly the second creation call. -/
def exitSecondFails : Nat → Nat := fun k => if k == 1 then 1 else 0

def envBadTaskRun : Env := ⟨GhStatus.present 0, Except.ok dataBadTask, "y", exitAllZero⟩

def envMissingFile : Env := ⟨GhStatus.present 0, Except.error PyErr.fileNotFoundError, "y", exitAllZero⟩

def envNoRepo : Env := ⟨GhStatus.present 0, Except.ok dataNoRepo, "y", exitAllZero⟩

def envNoMilestone : Env := ⟨GhStatus.present 0, Except.ok dataNoMilestone, "y", exitAllZero⟩

def envCancelled : Env := ⟨GhStatus.present 0, Except.ok dataOneTask, "n", exitAllZero⟩

def envThreeTasks : Env := ⟨GhStatus.present 0, Except.ok dataThreeTasks, "y", exitSecondFails⟩

def envNoGh : Env := ⟨GhStatus.absent, Except.ok dataOneTask, "y", exitAllZero⟩

/-- Same objective/prerequisites/criteria/estimate as `taskT1`, but different
identifier, title and labels. -/
def taskT1Renamed : JsonTask :=
  ⟨some ("Z9"), some ("Other title"), some ("Do X"), some [], some ["X works"],
    some ("1h"), some ["docs", "infra"]⟩

/-! ### Character and string helper lemmas -/

theorem char_toNat_inj (c d : Char) (h : c.toNat = d.toNat) : c = d :=
  Char.eq_of_val_eq (UInt32.eq_of_toBitVec_eq (BitVec.eq_of_toNat_eq h))

theorem toNat_ofNat_upper (n : Nat) (h1 : 65 ≤ n) (h2 : n ≤ 90) :
    (Char.ofNat (n + 32)).toNat = n + 32 := by
  rw [Char.ofNat, dif_pos (Or.inl (by omega) : Nat.isValidChar (n + 32))]
  rfl

theorem pyLowerChar_eq_y (c : Char) (h : pyLowerChar c = 'y') : c = 'y' ∨ c = 'Y' := by
  unfold pyLowerChar at h
  split at h
  · rename_i hr
    have h121 : c.toNat + 32 = 121 := by
      have hy := congrArg Char.toNat h
      rwa [toNat_ofNat_upper c.toNat hr.1 hr.2] at hy
    have h89 : c.toNat = 89 := by omega
    right
    exact char_toNat_inj c ('Y') (by rw [h89]; decide)
  · left; exact h

theorem pyLower_eq_y (s : String) (h : pyLower s = "y") : s = "y" ∨ s = "Y" := by
  obtain ⟨l⟩ := s
  have hd : l.map pyLowerChar = ['y'] := congrArg String.data h
  cases l with
  | nil => simp at hd
  | cons c rest =>
    cases rest with
    | nil =>
      have hc : pyLowerChar c = 'y' := by simpa using hd
      rcases pyLowerChar_eq_y c hc with h1 | h1
      · left; rw [h1]
      · right; rw [h1]
    | cons d rest2 => simp at hd

theorem pyLower_ne_y (s : String) (h1 : s ≠ "y") (h2 : s ≠ "Y") : pyLower s ≠ "y" :=
  fun h => (pyLower_eq_y s h).elim h1 h2

/-! ### Line-splitting lemmas -/

theorem splitNL_cons (c : Char) (cs x : List Char) (xs : List (List Char))
    (h : splitNL cs = x :: xs) :
    splitNL (c :: cs) = if c = '\n' then [] :: x :: xs else (c :: x) :: xs := by
  rw [show splitNL (c :: cs) = (match splitNL cs with
      | [] => [[c]]
      | l :: ls => if c = '\n' then [] :: l :: ls else (c :: l) :: ls) from rfl, h]

theorem splitNL_ne_nil (l : List Char) : splitNL l ≠ [] := by
  induction l with
  | nil => simp [splitNL]
  | cons c cs ih =>
    cases h : splitNL cs with
    | nil => exact absurd h ih
    | cons x xs =>
      rw [splitNL_cons c cs x xs h]
      by_cases hc : c = '\n' <;> simp [hc]

theorem splitNL_append_nl (a b : List Char) :
    splitNL (a ++ '\n' :: b) = splitNL a ++ splitNL b := by
  induction a with
  | nil =>
    cases h : splitNL b with
    | nil => exact absurd h (splitNL_ne_nil b)
    | cons x xs => simp [splitNL, h]
  | cons c cs ih =>
    cases h : splitNL cs with
    | nil => exact absurd h (splitNL_ne_nil cs)
    | cons x xs =>
      cases hb : splitNL b with
      | nil => exact absurd hb (splitNL_ne_nil b)
      | cons y ys =>
        rw [List.cons_append,
          splitNL_cons c (cs ++ '\n' :: b) x (xs ++ y :: ys) (by rw [ih, h, hb]; rfl),
          splitNL_cons c cs x xs h]
        by_cases hc : c = '\n' <;> simp [hc, hb]

theorem splitNL_no_nl (a : List Char) (h : '\n' ∉ a) : splitNL a = [a] := by
  induction a with
  | nil => rfl
  | cons c cs ih =>
    have hc : ¬ c = '\n' := fun hh => h (hh ▸ List.mem_cons_self c cs)
    have hcs : '\n' ∉ cs := fun hh => h (List.mem_cons_of_mem c hh)
    rw [splitNL_cons c cs cs [] (ih hcs)]
    simp [hc]

/-- The lines of a string (trailing newline yields a final empty line). -/
def strLines (s : String) : List String :=
  (splitNL s.data).map String.mk

/-- A string with no newline character. -/
def noNL (s : String) : Prop := '\n' ∉ s.data

instance (s : String) : Decidable (noNL s) := by
  unfold noNL; infer_instance

theorem strLines_append_nl (a b : String) :
    strLines (a ++ ("\n" ++ b)) = strLines a ++ strLines b := by
  unfold strLines
  have h : (a ++ ("\n" ++ b)).data = a.data ++ '\n' :: b.data := by
    simp [String.data_append]
  rw [h, splitNL_append_nl, List.map_append]

theorem strLines_noNL (s : String) (h : noNL s) : strLines s = [s] := by
  unfold strLines
  rw [splitNL_no_nl s.data h]
  rfl

theorem strLines_chunk_append (k x : String) (kd : List Char)
    (hk : k.data = kd ++ ['\n']) :
    strLines (k ++ x) = (strLines k).dropLast ++ strLines x := by
  unfold strLines
  have h1 : (k ++ x).data = kd ++ '\n' :: x.data := by
    simp [String.data_append, hk]
  have h2 : splitNL k.data = splitNL kd ++ [[]] := by
    rw [hk]
    have h3 := splitNL_append_nl kd []
    simpa [splitNL] using h3
  rw [h1, splitNL_append_nl, h2]
  simp [List.map_append]

theorem noNL_append (a b : String) (ha : noNL a) (hb : noNL b) : noNL (a ++ b) := by
  unfold noNL at *
  simp [String.data_append, ha, hb]

theorem strLines_bulletLines_append (ps : List String) (x : String)
    (h : ∀ p ∈ ps, noNL p) :
    strLines (bulletLines ps ++ x) = ps.map (fun p => "- " ++ p) ++ strLines x := by
  induction ps with
  | nil =>
    rw [show bulletLines [] = "" from rfl, String.empty_append]
    simp
  | cons p ps ih =>
    have hb : bulletLines (p :: ps) ++ x = ("- " ++ p) ++ ("\n" ++ (bulletLines ps ++ x)) := by
      rw [show bulletLines (p :: ps) = "- " ++ p ++ "\n" ++ bulletLines ps from rfl]
      simp [String.append_assoc]
    rw [hb, strLines_append_nl, ih (fun q hq => h q (List.mem_cons_of_mem p hq)),
      strLines_noNL ("- " ++ p)
        (noNL_append ("- ") p (by decide) (h p (List.mem_cons_self p ps)))]
    simp

theorem strLines_prereqBlock_append (ps : List String) (x : String)
    (h : ∀ p ∈ ps, noNL p) :
    strLines (prereqBlock ps ++ x)
      = (if ps.isEmpty then ["- None"] else ps.map (fun p => "- " ++ p)) ++ strLines x := by
  unfold prereqBlock
  split
  · rw [strLines_chunk_append _ x ("- None".data) (by decide)]
    simp only [show (strLines ("- None\n")).dropLast = ["- None"] from by decide]
  · exact strLines_bulletLines_append ps x h

theorem strLines_checkLines_append (cs : List String) (x : String)
    (h : ∀ c ∈ cs, noNL c) :
    strLines (checkLines cs ++ x) = cs.map (fun c => "- [ ] " ++ c) ++ strLines x := by
  induction cs with
  | nil =>
    rw [show checkLines [] = "" from rfl, String.empty_append]
    simp
  | cons c cs ih =>
    have hb : checkLines (c :: cs) ++ x = ("- [ ] " ++ c) ++ ("\n" ++ (checkLines cs ++ x)) := by
      rw [show checkLines (c :: cs) = "- [ ] " ++ c ++ "\n" ++ checkLines cs from rfl]
      simp [String.append_assoc]
    rw [hb, strLines_append_nl, ih (fun q hq => h q (List.mem_cons_of_mem c hq)),
      strLines_noNL ("- [ ] " ++ c)
        (noNL_append ("- [ ] ") c (by decide) (h c (List.mem_cons_self c cs)))]
    simp

/-! ### The rendered body, as a value and as a list of lines -/

theorem create_issue_body_ok (t : JsonTask) (obj : String) (ps cs : List String) (te : String)
    (hobj : t.objective? = some obj) (hps : t.prerequisites? = some ps)
    (hcs : t.acceptanceCriteria? = some cs) (hte : t.timeEstimate? = some te) :
    create_issue_body t = Except.ok
      ("## Objective\n" ++ obj ++ "\n\n## Prerequisites\n" ++ prereqBlock ps ++
        "\n## Acceptance Criteria\n" ++ checkLines cs ++
        ("\n## Time Estimate\n" ++ te ++
    "\n\n## Resources\n- Implementation Plan: `docs/SNES9XWASM_IMPLEMENTATION_PLAN.md`\n- Task Breakdown: `docs/TASK_BREAKDOWN.md`\n\n## Definition of Done\n- [ ] Code changes committed and reviewed\n- [ ] All acceptance criteria met\n- [ ] Tests written and passing\n- [ ] Documentation updated\n")) := by
  simp only [create_issue_body, getField, hobj, hps, hcs, hte]
  rfl

theorem strLines_preSec (x : String) : strLines ("\n## Prerequisites\n" ++ x)
    = ["", "## Prerequisites"] ++ strLines x := by
  rw [strLines_chunk_append ("\n## Prerequisites\n") x ("\n## Prerequisites".data) (by decide)]
  simp only [show (strLines ("\n## Prerequisites\n")).dropLast = ["", "## Prerequisites"]
    from by decide]

theorem strLines_accSec (x : String) : strLines ("\n## Acceptance Criteria\n" ++ x)
    = ["", "## Acceptance Criteria"] ++ strLines x := by
  rw [strLines_chunk_append ("\n## Acceptance Criteria\n") x
    ("\n## Acceptance Criteria".data) (by decide)]
  simp only [show (strLines ("\n## Acceptance Criteria\n")).dropLast
    = ["", "## Acceptance Criteria"] from by decide]

theorem strLines_accHdr (x : String) : strLines ("## Acceptance Criteria\n" ++ x)
    = ["## Acceptance Criteria"] ++ strLines x := by
  rw [strLines_chunk_append ("## Acceptance Criteria\n") x
    ("## Acceptance Criteria".data) (by decide)]
  simp only [show (strLines ("## Acceptance Criteria\n")).dropLast
    = ["## Acceptance Criteria"] from by decide]

theorem strLines_timeSec (x : String) : strLines ("\n## Time Estimate\n" ++ x)
    = ["", "## Time Estimate"] ++ strLines x := by
  rw [strLines_chunk_append ("\n## Time Estimate\n") x ("\n## Time Estimate".data) (by decide)]
  simp only [show (strLines ("\n## Time Estimate\n")).dropLast
    = ["", "## Time Estimate"] from by decide]

/-! ### Claim theorems -/

/-- C6: the Issue Formatter is a deterministic, side-effect-free function (in
this embedding `issue_title` and `create_issue_body` are pure functions, so
repeated application to the same task record is byte-identical), and the
title it renders is `[<id>] <title>`. -/
theorem C6_formatter_deterministic (t : JsonTask) (i ttl : String)
    (hid : t.id? = some i) (httl : t.title? = some ttl) :
    issue_title t = Except.ok ("[" ++ i ++ "] " ++ ttl)
    ∧ issue_title t = issue_title t
    ∧ create_issue_body t = create_issue_body t := by
  refine ⟨?_, rfl, rfl⟩
  simp only [issue_title, getField, hid, httl]
  rfl

/-- Witness for C6 at the concrete task `taskT1`. -/
theorem C6_formatter_deterministic_witness :
    issue_title taskT1 = Except.ok ("[" ++ "T1" ++ "] " ++ "Add X")
    ∧ issue_title taskT1 = issue_title taskT1
    ∧ create_issue_body taskT1 = create_issue_body taskT1 :=
  C6_formatter_deterministic taskT1 ("T1") ("Add X") rfl rfl

/-- C7: in the rendered body, the Prerequisites section (between the
`## Prerequisites` header and the blank line before `## Acceptance
Criteria`) consists of exactly one `- None` bullet when the prerequisite
sequence is empty, and of exactly one `- <p>` bullet per prerequisite, in
source order, otherwise. -/
theorem C7_prereq_section_lines (t : JsonTask) (obj : String) (ps cs : List String) (te : String)
    (hobj : t.objective? = some obj) (hps : t.prerequisites? = some ps)
    (hcs : t.acceptanceCriteria? = some cs) (hte : t.timeEstimate? = some te)
    (hpsNL : ∀ p ∈ ps, noNL p) :
    ∃ b rest, create_issue_body t = Except.ok b ∧
      strLines b = ["## Objective"] ++ strLines obj ++ ["", "## Prerequisites"]
        ++ (if ps.isEmpty then ["- None"] else ps.map (fun p => "- " ++ p))
        ++ ["", "## Acceptance Criteria"] ++ rest := by
  refine ⟨_, strLines (checkLines cs ++ ("\n## Time Estimate\n" ++ (te ++
    "\n\n## Resources\n- Implementation Plan: `docs/SNES9XWASM_IMPLEMENTATION_PLAN.md`\n- Task Breakdown: `docs/TASK_BREAKDOWN.md`\n\n## Definition of Done\n- [ ] Code changes committed and reviewed\n- [ ] All acceptance criteria met\n- [ ] Tests written and passing\n- [ ] Documentation updated\n"))),
    create_issue_body_ok t obj ps cs te hobj hps hcs hte, ?_⟩
  rw [show ("## Objective\n" : String) = "## Objective" ++ "\n" from by decide,
      show ("\n\n## Prerequisites\n" : String) = "\n" ++ "\n## Prerequisites\n" from by decide]
  simp only [String.append_assoc]
  rw [strLines_append_nl, strLines_append_nl, strLines_preSec,
      strLines_prereqBlock_append ps _ hpsNL, strLines_accSec,
      show strLines ("## Objective") = ["## Objective"] from by decide]
  simp [List.append_assoc]

/-- Witness for C7 at the empty-prerequisite task `taskT1` and the
two-prerequisite task `taskT2`. -/
theorem C7_prereq_section_lines_witness :
    (∃ b rest, create_issue_body taskT1 = Except.ok b ∧
      strLines b = ["## Objective"] ++ strLines ("Do X") ++ ["", "## Prerequisites"]
        ++ ["- None"] ++ ["", "## Acceptance Criteria"] ++ rest)
    ∧ (∃ b rest, create_issue_body taskT2 = Except.ok b ∧
      strLines b = ["## Objective"] ++ strLines ("Do Y") ++ ["", "## Prerequisites"]
        ++ ["- P1", "- P2"] ++ ["", "## Acceptance Criteria"] ++ rest) :=
  ⟨C7_prereq_section_lines taskT1 ("Do X") [] ["X works"] ("1h") rfl rfl rfl rfl
      (by decide),
    C7_prereq_section_lines taskT2 ("Do Y") ["P1", "P2"] ["A", "B"] ("2h") rfl rfl rfl rfl
      (by decide)⟩

/-- C8: the rendered body contains one unchecked checklist line
`- [ ] <criterion>` per acceptance criterion, in source order, immediately
preceded by the `## Acceptance Criteria` section header (and followed by the
blank line before `## Time Estimate`). -/
theorem C8_acceptance_section_lines (t : JsonTask) (obj : String) (ps cs : List String)
    (te : String)
    (hobj : t.objective? = some obj) (hps : t.prerequisites? = some ps)
    (hcs : t.acceptanceCriteria? = some cs) (hte : t.timeEstimate? = some te)
    (hcsNL : ∀ c ∈ cs, noNL c) :
    ∃ b pre rest, create_issue_body t = Except.ok b ∧
      strLines b = pre ++ ["## Acceptance Criteria"] ++ cs.map (fun c => "- [ ] " ++ c)
        ++ ["", "## Time Estimate"] ++ rest := by
  refine ⟨_, strLines ("## Objective\n" ++ obj ++ "\n\n## Prerequisites\n" ++ prereqBlock ps),
    strLines (te ++
    "\n\n## Resources\n- Implementation Plan: `docs/SNES9XWASM_IMPLEMENTATION_PLAN.md`\n- Task Breakdown: `docs/TASK_BREAKDOWN.md`\n\n## Definition of Done\n- [ ] Code changes committed and reviewed\n- [ ] All acceptance criteria met\n- [ ] Tests written and passing\n- [ ] Documentation updated\n"),
    create_issue_body_ok t obj ps cs te hobj hps hcs hte, ?_⟩
  have hassoc : ("## Objective\n" ++ obj ++ "\n\n## Prerequisites\n" ++ prereqBlock ps ++
        "\n## Acceptance Criteria\n" ++ checkLines cs ++
        ("\n## Time Estimate\n" ++ te ++
    "\n\n## Resources\n- Implementation Plan: `docs/SNES9XWASM_IMPLEMENTATION_PLAN.md`\n- Task Breakdown: `docs/TASK_BREAKDOWN.md`\n\n## Definition of Done\n- [ ] Code changes committed and reviewed\n- [ ] All acceptance criteria met\n- [ ] Tests written and passing\n- [ ] Documentation updated\n"))
      = ("## Objective\n" ++ obj ++ "\n\n## Prerequisites\n" ++ prereqBlock ps) ++
        ("\n" ++ ("## Acceptance Criteria\n" ++ (checkLines cs ++ ("\n## Time Estimate\n" ++ (te ++
    "\n\n## Resources\n- Implementation Plan: `docs/SNES9XWASM_IMPLEMENTATION_PLAN.md`\n- Task Breakdown: `docs/TASK_BREAKDOWN.md`\n\n## Definition of Done\n- [ ] Code changes committed and reviewed\n- [ ] All acceptance criteria met\n- [ ] Tests written and passing\n- [ ] Documentation updated\n"))))) := by
    rw [show ("\n## Acceptance Criteria\n" : String) = "\n" ++ "## Acceptance Criteria\n"
      from by decide]
    simp only [String.append_assoc]
  rw [hassoc, strLines_append_nl, strLines_accHdr,
    strLines_checkLines_append cs _ hcsNL, strLines_timeSec]
  simp [List.append_assoc]

/-- Witness for C8 at `taskT2`, whose criteria are exactly `["A", "B"]`: the
body has the two checklist lines `- [ ] A` and `- [ ] B`, in that order,
immediately after the header. -/
theorem C8_acceptance_section_lines_witness :
    ∃ b pre rest, create_issue_body taskT2 = Except.ok b ∧
      strLines b = pre ++ ["## Acceptance Criteria"] ++ ["- [ ] A", "- [ ] B"]
        ++ ["", "## Time Estimate"] ++ rest :=
  C8_acceptance_section_lines taskT2 ("Do Y") ["P1", "P2"] ["A", "B"] ("2h")
    rfl rfl rfl rfl (by decide)

/-- C10: the rendered body is independent of the task's identifier, title and
labels — any two task records agreeing on objective, prerequisites,
acceptance criteria and time estimate render byte-identical bodies. -/
theorem C10_body_independent_of_id_title_labels (t1 t2 : JsonTask)
    (h1 : t1.objective? = t2.objective?) (h2 : t1.prerequisites? = t2.prerequisites?)
    (h3 : t1.acceptanceCriteria? = t2.acceptanceCriteria?)
    (h4 : t1.timeEstimate? = t2.timeEstimate?) :
    create_issue_body t1 = create_issue_body t2 := by
  simp only [create_issue_body, h1, h2, h3, h4]

/-- Witness for C10: `taskT1` and `taskT1Renamed` differ in identifier, title
and labels but render the same body. -/
theorem C10_body_independent_witness :
    create_issue_body taskT1 = create_issue_body taskT1Renamed :=
  C10_body_independent_of_id_title_labels taskT1 taskT1Renamed rfl rfl rfl rfl

/-! ### Batch-runner lemmas -/

theorem except_ok_bind (x : α) (f : α → Except PyErr β) : (Except.ok x >>= f) = f x := rfl

theorem create_issue_cmd_ok (repo : String) (t : JsonTask) (hv : validTask t) :
    create_issue_cmd repo t = Except.ok (okCmd repo t) := by
  obtain ⟨h1, h2, h3, h4, h5, h6, h7⟩ := hv
  rw [Option.isSome_iff_exists] at h1 h2 h3 h4 h5 h6 h7
  obtain ⟨i, hi⟩ := h1
  obtain ⟨ttl, httl⟩ := h2
  obtain ⟨obj, hobj⟩ := h3
  obtain ⟨ps, hps⟩ := h4
  obtain ⟨cs, hcs⟩ := h5
  obtain ⟨te, hte⟩ := h6
  obtain ⟨ls, hls⟩ := h7
  simp only [okCmd, create_issue_cmd, issue_title, create_issue_body, getField,
    hi, httl, hobj, hps, hcs, hte, hls]
  rfl

theorem succCount_add_failCount (exitAt : Nat → Nat) (k n : Nat) :
    succCount exitAt k n + failCount exitAt k n = n := by
  induction n generalizing k with
  | zero => simp [succCount, failCount]
  | succ n ih =>
    have h2 := ih (k + 1)
    by_cases h : exitAt k == 0 <;> simp [succCount, failCount, h] <;> omega

theorem runBatch_spec (exitAt : Nat → Nat) (repo : String) (tasks : List JsonTask)
    (hv : ∀ t ∈ tasks, validTask t) (k created failed : Nat) :
    runBatch exitAt repo tasks k created failed
      = (tasks.map (fun t => Event.createCall (okCmd repo t)),
         Except.ok (created + succCount exitAt k tasks.length,
                    failed + failCount exitAt k tasks.length)) := by
  induction tasks generalizing k created failed with
  | nil => simp [runBatch, succCount, failCount]
  | cons t rest ih =>
    have hcmd := create_issue_cmd_ok repo t (hv t (List.mem_cons_self t rest))
    rw [show runBatch exitAt repo (t :: rest) k created failed
        = (match create_issue_cmd repo t with
          | Except.error e => ([], Except.error e)
          | Except.ok cmd =>
            let ok := exitAt k == 0
            let r := runBatch exitAt repo rest (k + 1)
              (if ok then created + 1 else created)
              (if ok then failed else failed + 1)
            (Event.createCall cmd :: r.1, r.2)) from rfl, hcmd]
    dsimp only
    rw [ih (fun q hq => hv q (List.mem_cons_of_mem t hq))]
    by_cases h : exitAt k == 0 <;>
      simp [h, succCount, failCount] <;> omega

/-- A confirmed run over well-formed data: preflight, load, prompt, one
creation call per task in source order, then the summary, and a normal exit. -/
theorem main_confirmed_run (env : Env) (d : JsonData) (proj : JsonProject)
    (repo m : String) (tasks : List JsonTask)
    (hgh : (check_gh_cli env.gh).1 = true)
    (hload : env.loadResult = Except.ok d)
    (hproj : d.project? = some proj)
    (hrepo : proj.repository? = some repo)
    (hms : proj.milestone? = some m)
    (htasks : d.tasks? = some tasks)
    (hv : ∀ t ∈ tasks, validTask t)
    (hresp : pyLower env.response = "y") :
    main' env = ([Event.preflight, Event.loadCall, Event.prompt]
        ++ tasks.map (fun t => Event.createCall (okCmd repo t))
        ++ [Event.summary (succCount env.createExit 0 tasks.length)
            (failCount env.createExit 0 tasks.length) tasks.length],
      Outcome.exited 0) := by
  have hstart : startupFields d = Except.ok (proj, repo, tasks) := by
    simp only [startupFields, getField, hproj, except_ok_bind, hrepo, htasks]
    rfl
  rw [show main' env = (if (check_gh_cli env.gh).1 = false then
      ([Event.preflight], Outcome.exited 1)
    else
      match load_issue_data env with
      | Except.error e => ([Event.preflight, Event.loadCall], Outcome.crashed e)
      | Except.ok d =>
        match startupFields d with
        | Except.error e => ([Event.preflight, Event.loadCall], Outcome.crashed e)
        | Except.ok (proj, repo, tasks) =>
          if pyLower env.response = "y" then
            afterBatch proj tasks.length (runBatch env.createExit repo tasks 0 0 0)
          else
            ([Event.preflight, Event.loadCall, Event.prompt, Event.cancelMessage],
             Outcome.exited 0)) from rfl]
  rw [hgh, load_issue_data, hload]
  dsimp only
  rw [hstart]
  dsimp only
  rw [if_pos hresp, runBatch_spec env.createExit repo tasks hv 0 0 0]
  simp only [afterBatch, Nat.zero_add, getField, hms]
  by_cases hc : succCount env.createExit 0 tasks.length > 0 <;> simp [hc]

theorem countCreates_append (a b : List Event) :
    countCreates (a ++ b) = countCreates a + countCreates b := by
  induction a with
  | nil => simp [countCreates]
  | cons e rest ih =>
    cases e <;> simp [countCreates, ih]
    omega

theorem countCreates_map (repo : String) (tasks : List JsonTask) :
    countCreates (tasks.map (fun t => Event.createCall (okCmd repo t)))
      = tasks.length := by
  induction tasks with
  | nil => rfl
  | cons t rest ih => simp [countCreates, ih]

/-- A confirmed run over data whose project metadata lacks `milestone`: the
whole batch still runs (the summary is printed), and only afterwards — and
only when at least one issue was created — the `milestone` read crashes. -/
theorem main_noMilestone_run (env : Env) (d : JsonData) (proj : JsonProject)
    (repo : String) (tasks : List JsonTask)
    (hgh : (check_gh_cli env.gh).1 = true)
    (hload : env.loadResult = Except.ok d)
    (hproj : d.project? = some proj)
    (hrepo : proj.repository? = some repo)
    (hms : proj.milestone? = none)
    (htasks : d.tasks? = some tasks)
    (hv : ∀ t ∈ tasks, validTask t)
    (hresp : pyLower env.response = "y") :
    (main' env).1 = [Event.preflight, Event.loadCall, Event.prompt]
        ++ tasks.map (fun t => Event.createCall (okCmd repo t))
        ++ [Event.summary (succCount env.createExit 0 tasks.length)
            (failCount env.createExit 0 tasks.length) tasks.length]
    ∧ (0 < succCount env.createExit 0 tasks.length →
        (main' env).2 = Outcome.crashed (PyErr.keyError keyMilestone))
    ∧ (succCount env.createExit 0 tasks.length = 0 →
        (main' env).2 = Outcome.exited 0) := by
  have hstart : startupFields d = Except.ok (proj, repo, tasks) := by
    simp only [startupFields, getField, hproj, except_ok_bind, hrepo, htasks]
    rfl
  have hmain : main' env = ([Event.preflight, Event.loadCall, Event.prompt]
      ++ tasks.map (fun t => Event.createCall (okCmd repo t))
      ++ [Event.summary (succCount env.createExit 0 tasks.length)
          (failCount env.createExit 0 tasks.length) tasks.length],
      if 0 < succCount env.createExit 0 tasks.length then
        Outcome.crashed (PyErr.keyError keyMilestone)
      else Outcome.exited 0) := by
    rw [show main' env = (if (check_gh_cli env.gh).1 = false then
        ([Event.preflight], Outcome.exited 1)
      else
        match load_issue_data env with
        | Except.error e => ([Event.preflight, Event.loadCall], Outcome.crashed e)
        | Except.ok d =>
          match startupFields d with
          | Except.error e => ([Event.preflight, Event.loadCall], Outcome.crashed e)
          | Except.ok (proj, repo, tasks) =>
            if pyLower env.response = "y" then
              afterBatch proj tasks.length (runBatch env.createExit repo tasks 0 0 0)
            else
              ([Event.preflight, Event.loadCall, Event.prompt, Event.cancelMessage],
               Outcome.exited 0)) from rfl]
    rw [hgh, load_issue_data, hload]
    dsimp only
    rw [hstart]
    dsimp only
    rw [if_pos hresp, runBatch_spec env.createExit repo tasks hv 0 0 0]
    simp only [afterBatch, Nat.zero_add, getField, hms]
    by_cases hc : 0 < succCount env.createExit 0 tasks.length <;> simp [hc]
  refine ⟨by rw [hmain], ?_, ?_⟩
  · intro h
    rw [hmain]
    simp [h]
  · intro h
    rw [hmain]
    simp [h]

/-- C1 (amended): a missing/unreadable/malformed file, and a missing
`project` object, `repository` field or `tasks` array — the keys read at
startup — abort the run before any issue-creation call (zero creation
invocations), with the process dying on the unhandled load error when the
preflight check passed.  The other required fields are read later: a field
missing from a task record is detected only mid-batch (see the
counterexample), and the project metadata's `milestone` is read only after
the whole batch, so with it missing every task's creation call is still
made and the run crashes only after the summary (and only when at least one
issue was created). -/
theorem C1_amended_required_fields (env : Env) :
    (∀ e, (load_issue_data env).bind startupFields = Except.error e →
        countCreates (main' env).1 = 0
        ∧ ((check_gh_cli env.gh).1 = true →
            main' env = ([Event.preflight, Event.loadCall], Outcome.crashed e)))
    ∧ (∀ d proj repo tasks,
        (check_gh_cli env.gh).1 = true →
        env.loadResult = Except.ok d →
        d.project? = some proj →
        proj.repository? = some repo →
        proj.milestone? = none →
        d.tasks? = some tasks →
        (∀ t ∈ tasks, validTask t) →
        pyLower env.response = "y" →
        countCreates (main' env).1 = tasks.length
        ∧ (0 < succCount env.createExit 0 tasks.length →
            (main' env).2 = Outcome.crashed (PyErr.keyError keyMilestone))) := by
  constructor
  · intro e hbad
    by_cases hgh : (check_gh_cli env.gh).1 = false
    · constructor
      · simp [main', hgh, countCreates]
      · intro h
        rw [h] at hgh
        simp at hgh
    · cases hload : env.loadResult with
      | error e2 =>
        have he : e2 = e := by
          rw [load_issue_data, hload] at hbad
          simpa [Except.bind] using hbad
        subst he
        simp [main', load_issue_data, hgh, hload, countCreates]
      | ok d =>
        have hsf : startupFields d = Except.error e := by
          rw [load_issue_data, hload] at hbad
          simpa [Except.bind] using hbad
        simp [main', load_issue_data, hgh, hload, hsf, countCreates]
  · intro d proj repo tasks hgh hload hproj hrepo hms htasks hv hresp
    obtain ⟨h1, h2, h3⟩ :=
      main_noMilestone_run env d proj repo tasks hgh hload hproj hrepo hms htasks hv hresp
    refine ⟨?_, h2⟩
    rw [h1, countCreates_append, countCreates_append, countCreates_map]
    simp [countCreates]

/-- C1 counterexample: two concrete runs refute the claim.  With the second
task record lacking `objective`, one creation invocation happens before the
crash; and with `milestone` absent from the project metadata — a required
project-metadata field per spec §3 — the load succeeds, the full batch runs
(one creation invocation) and the process crashes only afterwards.  In both
runs the number of external creation invocations is 1, not 0. -/
theorem C1_counterexample :
    (dataBadTask.tasks? = some [taskT1, taskNoObjective]
      ∧ taskNoObjective.objective? = none
      ∧ countCreates (main' envBadTaskRun).1 = 1
      ∧ (main' envBadTaskRun).2 = Outcome.crashed (PyErr.keyError keyObjective))
    ∧ (dataNoMilestone.project? = some (⟨some ("org/repo"), none⟩ : JsonProject)
      ∧ countCreates (main' envNoMilestone).1 = 1
      ∧ (main' envNoMilestone).2 = Outcome.crashed (PyErr.keyError keyMilestone)) := by
  exact ⟨⟨rfl, rfl, rfl, rfl⟩, rfl, rfl, rfl⟩

/-- Witness for C1 (amended): a missing data file and a missing `repository`
field abort with zero creation calls; a missing `milestone` still makes the
single task's creation call and crashes afterwards. -/
theorem C1_witness :
    (countCreates (main' envMissingFile).1 = 0
      ∧ ((check_gh_cli envMissingFile.gh).1 = true →
          main' envMissingFile = ([Event.preflight, Event.loadCall],
            Outcome.crashed PyErr.fileNotFoundError)))
    ∧ (countCreates (main' envNoRepo).1 = 0
      ∧ ((check_gh_cli envNoRepo.gh).1 = true →
          main' envNoRepo = ([Event.preflight, Event.loadCall],
            Outcome.crashed (PyErr.keyError keyRepository))))
    ∧ (countCreates (main' envNoMilestone).1 = 1
      ∧ (main' envNoMilestone).2 = Outcome.crashed (PyErr.keyError keyMilestone)) :=
  ⟨(C1_amended_required_fields envMissingFile).1 PyErr.fileNotFoundError rfl,
   (C1_amended_required_fields envNoRepo).1 (PyErr.keyError keyRepository) rfl,
   by
     have h := (C1_amended_required_fields envNoMilestone).2 dataNoMilestone
       (⟨some ("org/repo"), none⟩ : JsonProject) ("org/repo") [taskT1]
       rfl rfl rfl rfl rfl rfl (by decide) (by decide)
     exact ⟨h.1, h.2 (by decide)⟩⟩

/-- C2 (amended): in every run the Preflight Checker runs first and the Task
Source Loader second — whenever the loader runs at all, the trace starts
`preflight, loadCall`, the confirmation prompt comes only third, and the
loader never runs when the preflight check fails. -/
theorem C2_amended_preflight_first (env : Env) :
    ((main' env).1.take 1 = [Event.preflight])
    ∧ (Event.loadCall ∈ (main' env).1 →
        (main' env).1.take 2 = [Event.preflight, Event.loadCall])
    ∧ (Event.prompt ∈ (main' env).1 →
        (main' env).1.take 3 = [Event.preflight, Event.loadCall, Event.prompt])
    ∧ ((check_gh_cli env.gh).1 = false → Event.loadCall ∉ (main' env).1) := by
  by_cases hgh : (check_gh_cli env.gh).1 = false
  · simp [main', hgh]
  · cases hload : env.loadResult with
    | error e => simp [main', load_issue_data, hgh, hload]
    | ok d =>
      cases hstart : startupFields d with
      | error e => simp [main', load_issue_data, hgh, hload, hstart]
      | ok trip =>
        obtain ⟨proj, repo, tasks⟩ := trip
        by_cases hresp : pyLower env.response = "y"
        · rcases hrb : runBatch env.createExit repo tasks 0 0 0 with ⟨evs, res⟩
          cases res with
          | error e2 =>
            simp [main', load_issue_data, hgh, hload, hstart, hresp, afterBatch, hrb]
          | ok cf =>
            obtain ⟨created, failed⟩ := cf
            by_cases hcr : created > 0
            · cases hm : getField proj.milestone? keyMilestone with
              | error e3 =>
                simp [main', load_issue_data, hgh, hload, hstart, hresp, afterBatch,
                  hrb, hcr, hm]
              | ok u =>
                simp [main', load_issue_data, hgh, hload, hstart, hresp, afterBatch,
                  hrb, hcr, hm]
            · simp [main', load_issue_data, hgh, hload, hstart, hresp, afterBatch, hrb, hcr]
        · simp [main', load_issue_data, hgh, hload, hstart, hresp]

/-- C2 counterexample: a complete run (user declines at the prompt) whose
trace is `preflight, loadCall, prompt, …` — the preflight probe strictly
precedes the load, contradicting the claimed Loader-then-Preflight order. -/
theorem C2_counterexample :
    (main' envCancelled).1
      = [Event.preflight, Event.loadCall, Event.prompt, Event.cancelMessage]
    ∧ Event.preflight ≠ Event.loadCall := by
  refine ⟨rfl, by decide⟩

/-- Witness for C2 (amended) at a concrete full run. -/
theorem C2_witness :
    ((main' envCancelled).1.take 1 = [Event.preflight])
    ∧ (Event.loadCall ∈ (main' envCancelled).1 →
        (main' envCancelled).1.take 2 = [Event.preflight, Event.loadCall])
    ∧ (Event.prompt ∈ (main' envCancelled).1 →
        (main' envCancelled).1.take 3 = [Event.preflight, Event.loadCall, Event.prompt])
    ∧ ((check_gh_cli envCancelled.gh).1 = false → Event.loadCall ∉ (main' envCancelled).1) :=
  C2_amended_preflight_first envCancelled

/-- C3: on a confirmed run over well-formed data, every task is attempted in
source order (one creation call per task, regardless of the per-call exit
codes), the final summary reports created = number of zero-exit calls,
failed = number of non-zero-exit calls, total = number of tasks with
created + failed = total, and the process exits 0. -/
theorem C3_batch_resilient (env : Env) (d : JsonData) (proj : JsonProject)
    (repo m : String) (tasks : List JsonTask)
    (hgh : (check_gh_cli env.gh).1 = true)
    (hload : env.loadResult = Except.ok d)
    (hproj : d.project? = some proj)
    (hrepo : proj.repository? = some repo)
    (hms : proj.milestone? = some m)
    (htasks : d.tasks? = some tasks)
    (hv : ∀ t ∈ tasks, validTask t)
    (hresp : pyLower env.response = "y") :
    main' env = ([Event.preflight, Event.loadCall, Event.prompt]
        ++ tasks.map (fun t => Event.createCall (okCmd repo t))
        ++ [Event.summary (succCount env.createExit 0 tasks.length)
            (failCount env.createExit 0 tasks.length) tasks.length],
      Outcome.exited 0)
    ∧ succCount env.createExit 0 tasks.length + failCount env.createExit 0 tasks.length
        = tasks.length :=
  ⟨main_confirmed_run env d proj repo m tasks hgh hload hproj hrepo hms htasks hv hresp,
   succCount_add_failCount env.createExit 0 tasks.length⟩

/-- Witness for C3: three tasks with the second creation call failing —
all three are attempted, the summary is created=2, failed=1, total=3, and the
process exits 0. -/
theorem C3_witness :
    main' envThreeTasks = ([Event.preflight, Event.loadCall, Event.prompt]
        ++ [taskT1, taskT2, taskT3].map (fun t => Event.createCall (okCmd ("org/repo") t))
        ++ [Event.summary 2 1 3],
      Outcome.exited 0)
    ∧ (2 : Nat) + 1 = 3 :=
  C3_batch_resilient envThreeTasks dataThreeTasks projOK ("org/repo") ("M1")
    [taskT1, taskT2, taskT3] rfl rfl rfl rfl rfl rfl (by decide) (by decide)

/-- C4: any confirmation input other than `y`/`Y` cancels the run — the trace
is exactly preflight, load, prompt and the cancellation message (zero
creation calls), and the process terminates normally with exit code 0. -/
theorem C4_declined_confirmation (env : Env) (d : JsonData) (proj : JsonProject)
    (repo : String) (tasks : List JsonTask)
    (hgh : (check_gh_cli env.gh).1 = true)
    (hload : env.loadResult = Except.ok d)
    (hstart : startupFields d = Except.ok (proj, repo, tasks))
    (h1 : env.response ≠ "y") (h2 : env.response ≠ "Y") :
    main' env = ([Event.preflight, Event.loadCall, Event.prompt, Event.cancelMessage],
      Outcome.exited 0)
    ∧ countCreates (main' env).1 = 0 := by
  have hne := pyLower_ne_y env.response h1 h2
  have hm : main' env
      = ([Event.preflight, Event.loadCall, Event.prompt, Event.cancelMessage],
        Outcome.exited 0) := by
    simp [main', load_issue_data, hgh, hload, hstart, hne]
  exact ⟨hm, by rw [hm]; rfl⟩

/-- Witness for C4 at the response `"n"`. -/
theorem C4_witness :
    main' envCancelled = ([Event.preflight, Event.loadCall, Event.prompt,
      Event.cancelMessage], Outcome.exited 0)
    ∧ countCreates (main' envCancelled).1 = 0 :=
  C4_declined_confirmation envCancelled dataOneTask projOK ("org/repo") [taskT1]
    rfl rfl rfl (by decide) (by decide)

/-- C5 (amended): the script calls `sys.exit(1)` exactly when the preflight
check fails — `Outcome.exited 1` iff the check returned false — and on
preflight failure zero creation calls are made; the cancelled and
completed-batch paths return normally (exit 0), but runs that die on an
unhandled error (e.g. a missing data file) also terminate with OS status 1
even though the preflight check passed. -/
theorem C5_amended_exit_codes (env : Env) :
    ((main' env).2 = Outcome.exited 1 ↔ (check_gh_cli env.gh).1 = false)
    ∧ ((check_gh_cli env.gh).1 = false →
        main' env = ([Event.preflight], Outcome.exited 1)
        ∧ countCreates (main' env).1 = 0) := by
  by_cases hgh : (check_gh_cli env.gh).1 = false
  · simp [main', hgh, countCreates]
  · cases hload : env.loadResult with
    | error e => simp [main', load_issue_data, hgh, hload]
    | ok d =>
      cases hstart : startupFields d with
      | error e => simp [main', load_issue_data, hgh, hload, hstart]
      | ok trip =>
        obtain ⟨proj, repo, tasks⟩ := trip
        by_cases hresp : pyLower env.response = "y"
        · rcases hrb : runBatch env.createExit repo tasks 0 0 0 with ⟨evs, res⟩
          cases res with
          | error e2 =>
            simp [main', load_issue_data, hgh, hload, hstart, hresp, afterBatch, hrb]
          | ok cf =>
            obtain ⟨created, failed⟩ := cf
            by_cases hcr : created > 0
            · cases hm : getField proj.milestone? keyMilestone with
              | error e3 =>
                simp [main', load_issue_data, hgh, hload, hstart, hresp, afterBatch,
                  hrb, hcr, hm]
              | ok u =>
                simp [main', load_issue_data, hgh, hload, hstart, hresp, afterBatch,
                  hrb, hcr, hm]
            · simp [main', load_issue_data, hgh, hload, hstart, hresp, afterBatch, hrb, hcr]
        · simp [main', load_issue_data, hgh, hload, hstart, hresp]

/-- C5 counterexample: with the preflight check passing but the data file
missing, the process terminates with OS exit status 1 (unhandled exception),
so exit status 1 is not exclusive to preflight failure and this non-preflight
path does not exit 0. -/
theorem C5_counterexample :
    (check_gh_cli envMissingFile.gh).1 = true
    ∧ osExitCode (main' envMissingFile).2 = 1
    ∧ (main' envMissingFile).2 ≠ Outcome.exited 1 := by
  refine ⟨rfl, rfl, by decide⟩

/-- Witness for C5 (amended) with the `gh` client absent. -/
theorem C5_witness :
    ((main' envNoGh).2 = Outcome.exited 1 ↔ (check_gh_cli envNoGh.gh).1 = false)
    ∧ ((check_gh_cli envNoGh.gh).1 = false →
        main' envNoGh = ([Event.preflight], Outcome.exited 1)
        ∧ countCreates (main' envNoGh).1 = 0) :=
  C5_amended_exit_codes envNoGh

/-- C9: the Preflight Checker is a total function into `Bool` (it never
raises), prints nothing on success, and on every failing outcome prints a
non-empty human-readable diagnostic naming the missing install or login
step; aborting is decided by the caller (see `C5_amended_exit_codes`). -/
theorem C9_preflight_reports (gh : GhStatus) :
    ((check_gh_cli gh).1 = false → (check_gh_cli gh).2 ≠ [])
    ∧ ((check_gh_cli gh).1 = true → (check_gh_cli gh).2 = [])
    ∧ (gh = GhStatus.absent →
        (check_gh_cli gh).2 = ["❌ GitHub CLI (gh) is not installed.",
          "Install it from: https://cli.github.com/"])
    ∧ (∀ c, c ≠ 0 → gh = GhStatus.present c →
        (check_gh_cli gh).2
          = ["❌ GitHub CLI is not authenticated. Please run: gh auth login"]) := by
  cases gh with
  | absent => simp [check_gh_cli]
  | present c =>
    by_cases h : c = 0
    · simp [check_gh_cli, h]
      exact fun c2 h2 h3 => h2 h3.symm
    · simp [check_gh_cli, h]

/-- Witness for C9 with the client absent. -/
theorem C9_witness :
    ((check_gh_cli GhStatus.absent).1 = false → (check_gh_cli GhStatus.absent).2 ≠ [])
    ∧ ((check_gh_cli GhStatus.absent).1 = true → (check_gh_cli GhStatus.absent).2 = [])
    ∧ (GhStatus.absent = GhStatus.absent →
        (check_gh_cli GhStatus.absent).2 = ["❌ GitHub CLI (gh) is not installed.",
          "Install it from: https://cli.github.com/"])
    ∧ (∀ c, c ≠ 0 → GhStatus.absent = GhStatus.present c →
        (check_gh_cli GhStatus.absent).2
          = ["❌ GitHub CLI is not authenticated. Please run: gh auth login"]) :=
  C9_preflight_reports GhStatus.absent
